import Mathlib

/-!
Shallow embedding of the proximity-search core of the fastapi-address-book
service (src/app/crud/address.py, src/app/api/routes/addresses.py,
src/app/models/address.py), over exact real arithmetic, together with
proofs of the specified properties of the distance calculator, the radius
filter, the proximity ranker and the CRUD store operations.
-/

open Real

/-- Configured Earth radius constant (src/app/core/config.py, `Settings.EARTH_RADIUS_KM`). -/
def EARTH_RADIUS_KM : ℝ := 6371.0

/-- Degree-to-radian conversion, `math.radians`. -/
noncomputable def radians (x : ℝ) : ℝ := x * (Real.pi / 180)

/-- Two-argument arctangent `math.atan2 y x`, embedded as the principal
argument of the complex number `x + y*I` (range `(-pi, pi]`, `atan2 0 0 = 0`),
which agrees with the C/Python `atan2` on real arguments. -/
noncomputable def atan2 (y x : ℝ) : ℝ := Complex.arg (Complex.mk x y)

/-- The intermediate value `a` of the Haversine formula in
`calculate_distance` (src/app/crud/address.py lines 180-188):
`a = sin(dlat/2)**2 + cos(lat1_rad)*cos(lat2_rad)*sin(dlon/2)**2`. -/
noncomputable def haversine_a (lat1 lon1 lat2 lon2 : ℝ) : ℝ :=
  let lat1_rad := radians lat1
  let lon1_rad := radians lon1
  let lat2_rad := radians lat2
  let lon2_rad := radians lon2
  let dlat := lat2_rad - lat1_rad
  let dlon := lon2_rad - lon1_rad
  Real.sin (dlat / 2) ^ 2 +
    Real.cos lat1_rad * Real.cos lat2_rad * Real.sin (dlon / 2) ^ 2

/-- The Haversine great-circle distance `calculate_distance`
(src/app/crud/address.py lines 163-193).  Note the source takes
`sqrt(a)` and `sqrt(1 - a)` directly, without clamping `a` into `[0,1]`. -/
noncomputable def calculate_distance (lat1 lon1 lat2 lon2 : ℝ) : ℝ :=
  let a := haversine_a lat1 lon1 lat2 lon2
  let c := 2 * atan2 (Real.sqrt a) (Real.sqrt (1 - a))
  EARTH_RADIUS_KM * c

/-- A persisted address record (src/app/schemas/address.py, table `addresses`).
Timestamps are modelled as integer epoch values. -/
structure Address where
  id : ℤ
  street : String
  city : String
  state : Option String
  country : String
  postal_code : Option String
  latitude : ℝ
  longitude : ℝ
  created_at : ℤ
  updated_at : ℤ

/-- Partial update payload (src/app/models/address.py, `AddressUpdate`).
`none` in the outer option means the field was not supplied
(pydantic `exclude_unset`); for the optional string columns the inner
option is the stored value. -/
structure AddressUpdate where
  street : Option String
  city : Option String
  state : Option (Option String)
  country : Option String
  postal_code : Option (Option String)
  latitude : Option ℝ
  longitude : Option ℝ

/-- Look up a record by primary key (src/app/crud/address.py, `get_address`):
first stored record whose `id` matches, if any. -/
def get_address (db : List Address) (address_id : ℤ) : Option Address :=
  db.find? (fun a => a.id == address_id)

/-- Apply the supplied fields of an update to a record
(the `setattr` loop of `update_address`); the `updated_at` column is
refreshed by the ORM `onupdate` hook at commit time, passed here as `now`. -/
def apply_update (a : Address) (u : AddressUpdate) (now : ℤ) : Address :=
  { a with
    street := u.street.getD a.street
    city := u.city.getD a.city
    state := u.state.getD a.state
    country := u.country.getD a.country
    postal_code := u.postal_code.getD a.postal_code
    latitude := u.latitude.getD a.latitude
    longitude := u.longitude.getD a.longitude
    updated_at := now }

/-- Update by id (src/app/crud/address.py lines 65-96): if no record has the
given id, return `None` and leave the store unchanged; otherwise apply the
update to the matching record and return it together with the new store. -/
def update_address (db : List Address) (address_id : ℤ) (address_update : AddressUpdate)
    (now : ℤ) : Option Address × List Address :=
  match get_address db address_id with
  | none => (none, db)
  | some _ =>
    let updated := db.map (fun a =>
      if a.id == address_id then apply_update a address_update now else a)
    (get_address updated address_id, updated)

/-- Delete by id (src/app/crud/address.py lines 99-121): if no record has the
given id, return `False` and leave the store unchanged; otherwise remove the
matching record and return `True`. -/
def delete_address (db : List Address) (address_id : ℤ) : Bool × List Address :=
  match get_address db address_id with
  | none => (false, db)
  | some _ => (true, db.filter (fun a => !(a.id == address_id)))

/-- Radius filter (src/app/crud/address.py lines 124-160,
`get_addresses_within_radius`): linear scan keeping every record whose
Haversine distance to the reference point is `<= radius_km`. -/
noncomputable def get_addresses_within_radius (db : List Address)
    (latitude longitude radius_km : ℝ) : List Address :=
  db.filter (fun address =>
    decide (calculate_distance latitude longitude address.latitude address.longitude ≤ radius_km))

/-- Round-half-to-even to the nearest integer, the rounding mode of Python's
built-in `round`. -/
noncomputable def roundHalfEven (y : ℝ) : ℤ :=
  if Int.fract y = 1 / 2 then (if 2 ∣ ⌊y⌋ then ⌊y⌋ else ⌊y⌋ + 1) else round y

/-- Python's `round(x, 2)`: round to two decimal places, half to even. -/
noncomputable def round2 (x : ℝ) : ℝ := (roundHalfEven (100 * x) : ℝ) / 100

/-- The annotation step of the nearby route
(src/app/api/routes/addresses.py lines 129-141): pair each record with its
distance to the reference point rounded to two decimal places. -/
noncomputable def annotate (addresses : List Address) (latitude longitude : ℝ) :
    List (Address × ℝ) :=
  addresses.map (fun address =>
    (address, round2 (calculate_distance latitude longitude address.latitude address.longitude)))

/-- The proximity ranker (src/app/api/routes/addresses.py lines 129-143):
annotate each filtered record with its rounded distance and stably sort by
the `distance_km` key ascending (`list.sort` in Python is a stable sort,
modelled by `List.mergeSort`). -/
noncomputable def rank (filtered : List Address) (latitude longitude : ℝ) :
    List (Address × ℝ) :=
  (annotate filtered latitude longitude).mergeSort (fun x y => decide (x.2 ≤ y.2))

/-- A validated proximity query (src/app/models/address.py, `LocationQuery`). -/
structure LocationQuery where
  latitude : ℝ
  longitude : ℝ
  radius_km : ℝ

/-- Pydantic validation of `LocationQuery` (src/app/models/address.py
lines 69-73): latitude in `[-90, 90]`, longitude in `[-180, 180]`,
`radius_km > 0`; any violation is rejected before the handler body runs. -/
noncomputable def LocationQuery.validate (latitude longitude radius_km : ℝ) :
    Option LocationQuery :=
  if -90 ≤ latitude ∧ latitude ≤ 90 ∧ -180 ≤ longitude ∧ longitude ≤ 180 ∧ 0 < radius_km
  then some ⟨latitude, longitude, radius_km⟩ else none

/-- Handler body of `POST /addresses/nearby`
(src/app/api/routes/addresses.py lines 113-151) on a validated query:
radius filter, then annotate and stably sort by rounded distance. -/
noncomputable def get_nearby_addresses (db : List Address) (location : LocationQuery) :
    List (Address × ℝ) :=
  rank (get_addresses_within_radius db location.latitude location.longitude location.radius_km)
    location.latitude location.longitude

/-- The full `findNearby` operation: boundary validation followed by the
nearby handler; an invalid request never reaches the core. -/
noncomputable def findNearby (db : List Address) (latitude longitude radius_km : ℝ) :
    Option (List (Address × ℝ)) :=
  (LocationQuery.validate latitude longitude radius_km).map
    (fun location => get_nearby_addresses db location)

/-- A sample record at the origin, used to instantiate theorems. -/
def sampleAddress : Address :=
  { id := 1, street := "Main St", city := "Town", state := none, country := "Nowhere",
    postal_code := none, latitude := 0, longitude := 0, created_at := 0, updated_at := 0 }

/-- A sample record on the equator at longitude 2 degrees. -/
def addr2E : Address :=
  { id := 1, street := "Main St", city := "Town", state := none, country := "Nowhere",
    postal_code := none, latitude := 0, longitude := 2, created_at := 0, updated_at := 0 }

/-- An update payload that supplies no fields. -/
def noUpdate : AddressUpdate :=
  { street := none, city := none, state := none, country := none,
    postal_code := none, latitude := none, longitude := none }

/-! ## Helper lemmas -/

lemma atan2_zero_one : atan2 0 1 = 0 := by
  unfold atan2
  have h : (Complex.mk 1 0) = (1 : ℂ) := by
    apply Complex.ext <;> simp
  rw [h, Complex.arg_one]

lemma calculate_distance_self (lat lon : ℝ) : calculate_distance lat lon lat lon = 0 := by
  have ha : haversine_a lat lon lat lon = 0 := by
    simp [haversine_a]
  simp [calculate_distance, ha, atan2_zero_one]

lemma round2_zero : round2 0 = 0 := by
  have h : roundHalfEven 0 = 0 := by
    unfold roundHalfEven
    rw [if_neg (by rw [Int.fract_zero]; norm_num)]
    exact round_zero
  simp [round2, h]

lemma haversine_core_bounds (A B d : ℝ) :
    0 ≤ Real.sin ((B - A) / 2) ^ 2 + Real.cos A * Real.cos B * Real.sin (d / 2) ^ 2 ∧
    Real.sin ((B - A) / 2) ^ 2 + Real.cos A * Real.cos B * Real.sin (d / 2) ^ 2 ≤ 1 := by
  have e1 : 2 * ((B - A) / 2) = B - A := by ring
  have e2 : 2 * (d / 2) = d := by ring
  have h1 := Real.sin_sq_eq_half_sub ((B - A) / 2)
  rw [e1] at h1
  have h2 := Real.sin_sq_eq_half_sub (d / 2)
  rw [e2] at h2
  have h3 := Real.cos_sub B A
  have p1 := Real.sin_sq_add_cos_sq A
  have p2 := Real.sin_sq_add_cos_sq B
  have c1 : Real.cos d ≤ 1 := Real.cos_le_one d
  have c2 : -1 ≤ Real.cos d := Real.neg_one_le_cos d
  have hcd : Real.cos d ^ 2 ≤ 1 := by nlinarith
  rw [h1, h2, h3]
  constructor
  · nlinarith [sq_nonneg (Real.sin A * Real.cos B - Real.cos A * Real.sin B * Real.cos d),
      sq_nonneg (Real.sin A * Real.sin B + Real.cos A * Real.cos B * Real.cos d - 1),
      mul_nonneg (sq_nonneg (Real.cos A)) (sub_nonneg.mpr hcd)]
  · nlinarith [sq_nonneg (Real.sin A * Real.cos B - Real.cos A * Real.sin B * Real.cos d),
      sq_nonneg (Real.sin A * Real.sin B + Real.cos A * Real.cos B * Real.cos d + 1),
      mul_nonneg (sq_nonneg (Real.cos A)) (sub_nonneg.mpr hcd)]

lemma haversine_a_nonneg (lat1 lon1 lat2 lon2 : ℝ) :
    0 ≤ haversine_a lat1 lon1 lat2 lon2 :=
  (haversine_core_bounds (radians lat1) (radians lat2)
    (radians lon2 - radians lon1)).1

lemma haversine_a_le_one (lat1 lon1 lat2 lon2 : ℝ) :
    haversine_a lat1 lon1 lat2 lon2 ≤ 1 :=
  (haversine_core_bounds (radians lat1) (radians lat2)
    (radians lon2 - radians lon1)).2

lemma haversine_a_comm (lat1 lon1 lat2 lon2 : ℝ) :
    haversine_a lat1 lon1 lat2 lon2 = haversine_a lat2 lon2 lat1 lon1 := by
  have hs : ∀ x y : ℝ, Real.sin ((x - y) / 2) ^ 2 = Real.sin ((y - x) / 2) ^ 2 := by
    intro x y
    rw [show (x - y) / 2 = -((y - x) / 2) by ring, Real.sin_neg, neg_sq]
  simp only [haversine_a]
  rw [hs (radians lat2) (radians lat1), hs (radians lon2) (radians lon1),
    mul_comm (Real.cos (radians lat1)) (Real.cos (radians lat2))]

/-! ## Claim theorems -/

/-- C5: the distance calculator is symmetric: for every pair of coordinates
(in particular every pair of valid coordinates), `distance(a, b)` equals
`distance(b, a)`. -/
theorem calculate_distance_symm (lat1 lon1 lat2 lon2 : ℝ) :
    calculate_distance lat1 lon1 lat2 lon2 = calculate_distance lat2 lon2 lat1 lon1 := by
  simp only [calculate_distance]
  rw [haversine_a_comm]

/-- C6: the distance calculator satisfies the identity law: for every
coordinate (in particular every valid coordinate), `distance(a, a)` is
exactly `0`, hence within the `1e-9` km tolerance. -/
theorem calculate_distance_self_zero (lat lon : ℝ) :
    calculate_distance lat lon lat lon = 0 ∧
    |calculate_distance lat lon lat lon| ≤ 1e-9 := by
  refine ⟨calculate_distance_self lat lon, ?_⟩
  rw [calculate_distance_self lat lon, abs_zero]
  norm_num

/-- C2: for every candidate set, reference coordinate and radius, the radius
filter returns exactly the candidates whose distance to the reference is at
most `radius_km`; in particular a candidate at distance exactly `radius_km`
is included (inclusive boundary). -/
theorem radius_filter_mem_iff (db : List Address) (latitude longitude radius_km : ℝ)
    (a : Address) :
    (a ∈ get_addresses_within_radius db latitude longitude radius_km ↔
      a ∈ db ∧ calculate_distance latitude longitude a.latitude a.longitude ≤ radius_km) ∧
    (a ∈ db → calculate_distance latitude longitude a.latitude a.longitude = radius_km →
      a ∈ get_addresses_within_radius db latitude longitude radius_km) := by
  have hiff : a ∈ get_addresses_within_radius db latitude longitude radius_km ↔
      a ∈ db ∧ calculate_distance latitude longitude a.latitude a.longitude ≤ radius_km := by
    simp [get_addresses_within_radius, List.mem_filter]
  exact ⟨hiff, fun ha he => hiff.mpr ⟨ha, le_of_eq he⟩⟩

/-- C10: update and delete are atomic on a missing id: for every `address_id`
not present in the store, `update_address` returns `None`, `delete_address`
returns `False`, and in both cases the store is left unchanged. -/
theorem update_delete_missing_id (db : List Address) (address_id : ℤ)
    (u : AddressUpdate) (now : ℤ) (h : ∀ a ∈ db, a.id ≠ address_id) :
    update_address db address_id u now = (none, db) ∧
    delete_address db address_id = (false, db) := by
  have hfind : get_address db address_id = none := by
    rw [get_address, List.find?_eq_none]
    intro a ha
    simpa using h a ha
  constructor
  · rw [update_address, hfind]
  · rw [delete_address, hfind]

/-- Witness for C10 at a concrete empty store and id. -/
theorem update_delete_missing_id_witness :
    update_address [] 1 noUpdate 0 = (none, []) ∧
    delete_address [] 1 = (false, []) :=
  update_delete_missing_id [] 1 noUpdate 0 (by simp)

/-- Witness instantiation for C2 at a concrete store, query and candidate. -/
theorem radius_filter_mem_iff_witness :
    ((sampleAddress ∈ get_addresses_within_radius [] 0 0 1 ↔
      sampleAddress ∈ ([] : List Address) ∧
        calculate_distance 0 0 sampleAddress.latitude sampleAddress.longitude ≤ 1) ∧
    (sampleAddress ∈ ([] : List Address) →
      calculate_distance 0 0 sampleAddress.latitude sampleAddress.longitude = 1 →
      sampleAddress ∈ get_addresses_within_radius [] 0 0 1)) :=
  radius_filter_mem_iff [] 0 0 1 sampleAddress

lemma distKeyLE_trans (a b c : Address × ℝ) :
    (fun x y : Address × ℝ => decide (x.2 ≤ y.2)) a b →
    (fun x y : Address × ℝ => decide (x.2 ≤ y.2)) b c →
    (fun x y : Address × ℝ => decide (x.2 ≤ y.2)) a c := by
  simp only [decide_eq_true_eq]
  exact le_trans

lemma distKeyLE_total (a b : Address × ℝ) :
    ((fun x y : Address × ℝ => decide (x.2 ≤ y.2)) a b ||
      (fun x y : Address × ℝ => decide (x.2 ≤ y.2)) b a) := by
  simp only [Bool.or_eq_true, decide_eq_true_eq]
  exact le_total a.2 b.2

/-- C3: for every filtered candidate sequence and reference coordinate, the
ranking step pairs each record with its distance to the reference rounded to
2 decimal places, the output is sorted non-decreasing by the `distance_km`
key, and the output length equals the input length. -/
theorem rank_spec (filtered : List Address) (latitude longitude : ℝ) :
    (∀ pr ∈ rank filtered latitude longitude,
      pr.2 = round2 (calculate_distance latitude longitude pr.1.latitude pr.1.longitude)) ∧
    List.Pairwise (fun p q : Address × ℝ => p.2 ≤ q.2) (rank filtered latitude longitude) ∧
    (rank filtered latitude longitude).length = filtered.length := by
  refine ⟨?_, ?_, ?_⟩
  · intro pr hpr
    rw [rank, List.mem_mergeSort, annotate, List.mem_map] at hpr
    obtain ⟨a, _, rfl⟩ := hpr
    rfl
  · have hs := List.sorted_mergeSort distKeyLE_trans distKeyLE_total
      (annotate filtered latitude longitude)
    rw [rank]
    exact hs.imp (by simp only [decide_eq_true_eq]; exact fun h => h)
  · rw [rank, List.length_mergeSort, annotate, List.length_map]

/-- Witness instantiation for C3 at a concrete input list and reference. -/
theorem rank_spec_witness :
    (∀ pr ∈ rank [sampleAddress] 0 0,
      pr.2 = round2 (calculate_distance 0 0 pr.1.latitude pr.1.longitude)) ∧
    List.Pairwise (fun p q : Address × ℝ => p.2 ≤ q.2) (rank [sampleAddress] 0 0) ∧
    (rank [sampleAddress] 0 0).length = [sampleAddress].length :=
  rank_spec [sampleAddress] 0 0

/-- C4: the nearby query is deterministic and its ordering is stable: two
records with equal rounded distance keep their relative input order through
the sort, and two runs of `findNearby` on identical inputs over an unchanged
store return identical output. -/
theorem nearby_stable_deterministic (db : List Address) (location : LocationQuery)
    (p q : Address × ℝ)
    (hsub : List.Sublist [p, q]
      (annotate (get_addresses_within_radius db location.latitude location.longitude
        location.radius_km) location.latitude location.longitude))
    (heq : p.2 = q.2) :
    List.Sublist [p, q] (get_nearby_addresses db location) ∧
    ∀ latitude longitude radius_km : ℝ,
      findNearby db latitude longitude radius_km = findNearby db latitude longitude radius_km := by
  constructor
  · rw [get_nearby_addresses, rank]
    exact List.pair_sublist_mergeSort distKeyLE_trans distKeyLE_total
      (by simp [heq]) hsub
  · intro _ _ _
    rfl

lemma filter_two_origin :
    get_addresses_within_radius [sampleAddress, sampleAddress] 0 0 1 =
      [sampleAddress, sampleAddress] := by
  have h0 : calculate_distance 0 0 sampleAddress.latitude sampleAddress.longitude = 0 := by
    show calculate_distance 0 0 0 0 = 0
    exact calculate_distance_self 0 0
  simp [get_addresses_within_radius, List.filter, h0]

lemma annotate_two_origin :
    annotate [sampleAddress, sampleAddress] 0 0 =
      [(sampleAddress, 0), (sampleAddress, 0)] := by
  have h0 : calculate_distance 0 0 sampleAddress.latitude sampleAddress.longitude = 0 := by
    show calculate_distance 0 0 0 0 = 0
    exact calculate_distance_self 0 0
  simp [annotate, h0, round2_zero]

/-- Witness for C4 at a concrete two-record store with tied rounded
distances. -/
theorem nearby_stable_deterministic_witness :
    List.Sublist [(sampleAddress, (0 : ℝ)), (sampleAddress, (0 : ℝ))]
      (get_nearby_addresses [sampleAddress, sampleAddress] ⟨0, 0, 1⟩) ∧
    ∀ latitude longitude radius_km : ℝ,
      findNearby [sampleAddress, sampleAddress] latitude longitude radius_km =
        findNearby [sampleAddress, sampleAddress] latitude longitude radius_km :=
  nearby_stable_deterministic [sampleAddress, sampleAddress] ⟨0, 0, 1⟩
    (sampleAddress, 0) (sampleAddress, 0)
    (by rw [show (⟨0, 0, 1⟩ : LocationQuery).latitude = 0 from rfl,
          show (⟨0, 0, 1⟩ : LocationQuery).longitude = 0 from rfl,
          show (⟨0, 0, 1⟩ : LocationQuery).radius_km = 1 from rfl,
          filter_two_origin, annotate_two_origin])
    rfl

/-- C7: an empty candidate set is not an error: for every valid reference
coordinate and positive radius, `findNearby` over a store with zero records
returns the empty ordered sequence. -/
theorem findNearby_empty_store (latitude longitude radius_km : ℝ)
    (h1 : -90 ≤ latitude) (h2 : latitude ≤ 90) (h3 : -180 ≤ longitude)
    (h4 : longitude ≤ 180) (h5 : 0 < radius_km) :
    findNearby [] latitude longitude radius_km = some [] := by
  rw [findNearby, LocationQuery.validate, if_pos ⟨h1, h2, h3, h4, h5⟩]
  simp [get_nearby_addresses, rank, annotate, get_addresses_within_radius]

/-- Witness for C7 at a concrete valid query. -/
theorem findNearby_empty_store_witness : findNearby [] 0 0 1 = some [] :=
  findNearby_empty_store 0 0 1 (by norm_num) (by norm_num) (by norm_num)
    (by norm_num) (by norm_num)

/-- C8: the boundary layer rejects invalid proximity-query input before the
core executes: a non-positive radius, an out-of-range latitude or an
out-of-range longitude makes validation fail, and `findNearby` then returns
no result from the core. -/
theorem findNearby_rejects_invalid (db : List Address)
    (latitude longitude radius_km : ℝ)
    (h : radius_km ≤ 0 ∨ latitude < -90 ∨ 90 < latitude ∨
      longitude < -180 ∨ 180 < longitude) :
    LocationQuery.validate latitude longitude radius_km = none ∧
    findNearby db latitude longitude radius_km = none := by
  have hv : LocationQuery.validate latitude longitude radius_km = none := by
    rw [LocationQuery.validate, if_neg]
    rintro ⟨c1, c2, c3, c4, c5⟩
    rcases h with h | h | h | h | h <;> linarith
  exact ⟨hv, by rw [findNearby, hv]; rfl⟩

/-- Witness for C8 at a concrete zero radius. -/
theorem findNearby_rejects_invalid_witness :
    LocationQuery.validate 0 0 0 = none ∧ findNearby [] 0 0 0 = none :=
  findNearby_rejects_invalid [] 0 0 0 (Or.inl le_rfl)

lemma haversine_a_equator_two :
    haversine_a 0 0 0 2 = Real.sin (Real.pi / 180) ^ 2 := by
  have e : 2 * (Real.pi / 180) / 2 = Real.pi / 180 := by ring
  simp [haversine_a, radians, e]

lemma sin_q_nonneg : 0 ≤ Real.sin (Real.pi / 180) := by
  apply Real.sin_nonneg_of_nonneg_of_le_pi
  · positivity
  · nlinarith [Real.pi_pos]

lemma cos_q_nonneg : 0 ≤ Real.cos (Real.pi / 180) := by
  apply Real.cos_nonneg_of_mem_Icc
  constructor
  · nlinarith [Real.pi_pos]
  · nlinarith [Real.pi_pos]

lemma atan2_q : atan2 (Real.sin (Real.pi / 180)) (Real.cos (Real.pi / 180)) =
    Real.pi / 180 := by
  unfold atan2
  rw [Complex.mk_eq_add_mul_I, Complex.ofReal_cos, Complex.ofReal_sin]
  apply Complex.arg_cos_add_sin_mul_I
  constructor
  · nlinarith [Real.pi_pos]
  · nlinarith [Real.pi_pos]

lemma calculate_distance_equator_two :
    calculate_distance 0 0 0 2 = 6371 * Real.pi / 90 := by
  simp only [calculate_distance, haversine_a_equator_two]
  rw [Real.sqrt_sq sin_q_nonneg,
    show (1 : ℝ) - Real.sin (Real.pi / 180) ^ 2 = Real.cos (Real.pi / 180) ^ 2 from by
      rw [Real.cos_sq'],
    Real.sqrt_sq cos_q_nonneg, atan2_q, EARTH_RADIUS_KM]
  norm_num
  ring

lemma round2_equator_two : round2 (6371 * Real.pi / 90) = 222.39 := by
  have hl := Real.pi_gt_d6
  have hu := Real.pi_lt_d6
  have hylb : (22238.9 : ℝ) < 100 * (6371 * Real.pi / 90) := by nlinarith
  have hyub : 100 * (6371 * Real.pi / 90) < 22239 := by nlinarith
  have hfloor : ⌊(100 * (6371 * Real.pi / 90) : ℝ)⌋ = 22238 := by
    apply Int.floor_eq_iff.mpr
    constructor
    · push_cast; linarith
    · push_cast; linarith
  have hfract : Int.fract (100 * (6371 * Real.pi / 90) : ℝ) ≠ 1 / 2 := by
    rw [Int.fract, hfloor]
    push_cast
    intro hcontra
    nlinarith
  have hround : round (100 * (6371 * Real.pi / 90) : ℝ) = 22239 := by
    rw [round_eq]
    apply Int.floor_eq_iff.mpr
    constructor
    · push_cast; linarith
    · push_cast; linarith
  simp only [round2, roundHalfEven]
  rw [if_neg hfract, hround]
  norm_num

lemma nearby_single_equator :
    get_nearby_addresses [addr2E] ⟨0, 0, 6371 * Real.pi / 90⟩ =
      [(addr2E, (222.39 : ℝ))] := by
  have hd : calculate_distance 0 0 addr2E.latitude addr2E.longitude =
      6371 * Real.pi / 90 := by
    show calculate_distance 0 0 0 2 = _
    exact calculate_distance_equator_two
  show rank (get_addresses_within_radius [addr2E] 0 0 (6371 * Real.pi / 90)) 0 0 = _
  have hfil : get_addresses_within_radius [addr2E] 0 0 (6371 * Real.pi / 90) =
      [addr2E] := by
    simp [get_addresses_within_radius, List.filter, hd]
  rw [hfil, rank, annotate]
  simp [hd, round2_equator_two]

/-- C9: radius membership is decided on the unrounded distance while the
reported `distance_km` is rounded to 2 decimal places: the store `[addr2E]`
with the valid query (0, 0, radius = 6371*pi/90 km) returns `addr2E` with
reported distance 222.39 km, strictly greater than the radius, even though
the exact distance equals the radius. -/
theorem nearby_reported_distance_exceeds_radius :
    (addr2E, (222.39 : ℝ)) ∈
      get_nearby_addresses [addr2E] ⟨0, 0, 6371 * Real.pi / 90⟩ ∧
    calculate_distance 0 0 addr2E.latitude addr2E.longitude ≤ 6371 * Real.pi / 90 ∧
    6371 * Real.pi / 90 < 222.39 := by
  refine ⟨?_, ?_, ?_⟩
  · rw [nearby_single_equator]
    exact List.mem_singleton_self _
  · rw [show addr2E.latitude = 0 from rfl, show addr2E.longitude = 2 from rfl,
      calculate_distance_equator_two]
  · have := Real.pi_lt_d6
    nlinarith

/-- C1: at the valid coordinate pair (lat -87.5, lon -180) vs (lat 87.5,
lon 0) — where IEEE double evaluation of the source formula yields
`a = 1.0000000000000002` and the unclamped `sqrt(1 - a)` raises a math
domain error — the exact-arithmetic value of `a` lies in `[0, 1]`, so the
overshoot past 1 is purely a floating-point rounding artifact, precisely the
case the specified clamp is meant to guard. -/
theorem haversine_a_exact_bounds_at_failing_input :
    0 ≤ haversine_a (-87.5) (-180) 87.5 0 ∧
    haversine_a (-87.5) (-180) 87.5 0 ≤ 1 ∧
    0 ≤ 1 - haversine_a (-87.5) (-180) 87.5 0 := by
  refine ⟨haversine_a_nonneg _ _ _ _, haversine_a_le_one _ _ _ _, ?_⟩
  have h := haversine_a_le_one (-87.5) (-180) 87.5 0
  linarith
